import Mathlib

/-! Session validation (`utils/authenticator.go`).

A shallow embedding of `ValidateRequest` and of the values it handles.

`ValidateRequest` is sequential code with five early returns.  It talks to
three collaborators that are not part of the file: the request (gin's
`Context.Cookie`), the library function `uuid.Parse`, and the two repository
interfaces.  The parser is an argument of the embedded function; the library
function itself is embedded further down and is what the worked examples
plug in.  The repositories are interface values, so they may have any
behaviour, including side effects; they are embedded as functions over an
arbitrary world state `σ` that is threaded through the calls in program
order.  Every repository call is also recorded in a call log, so that
statements about how often and with which argument a repository is queried
can be made directly.
-/

namespace Authenticator

/-! ## Values -/

/-- A `uuid.UUID`: sixteen bytes. -/
structure UUID where
  bytes : List Nat
  deriving DecidableEq

/-- A `time.Time` instant, as nanoseconds since the Unix epoch. -/
structure Time where
  unixNano : Int
  deriving DecidableEq

/-- Go's `t.After(u)`: the instant `t` is strictly later than `u`. -/
def Time.After (t u : Time) : Bool :=
  decide (u.unixNano < t.unixNano)

/-- A Go `error` value.  `errorString s` is what `errors.New(s)` and a
`fmt.Errorf` without `%w` build.  `wrapError pfx err` is what
`fmt.Errorf(pfx + "%w", err)` builds: the text written in front of the
cause, and the cause itself. -/
inductive GoError where
  | errorString (s : String)
  | wrapError (pfx : String) (err : GoError)
  deriving DecidableEq

/-- The method `Error()`: a wrapper prints its own text followed by the text
of its cause. -/
def GoError.Error : GoError → String
  | .errorString s => s
  | .wrapError pfx err => pfx ++ err.Error

/-- The function `errors.Unwrap`: the cause under a wrapper, nothing for a
plain error. -/
def GoError.Unwrap : GoError → Option GoError
  | .errorString _ => none
  | .wrapError _ err => some err

/-- The function `errors.Is(err, target)`: `target` occurs somewhere on the
chain that `Unwrap` walks, `err` itself included. -/
def GoError.Is : GoError → GoError → Bool
  | .errorString s, target => decide (GoError.errorString s = target)
  | .wrapError pfx err, target =>
      decide (GoError.wrapError pfx err = target) || err.Is target

/-- What the validator itself writes into a failure: the fixed text of the
return statement that built it.  The cause below a wrapper is supplied by
the collaborator and is not part of it. -/
def GoError.ownText : GoError → String
  | .errorString s => s
  | .wrapError pfx _ => pfx

/-- The call `fmt.Errorf(pfx + "%w", err)`. -/
def Errorf (pfx : String) (err : GoError) : GoError :=
  .wrapError pfx err

/-- The sentinel `http.ErrNoCookie`. -/
def ErrNoCookie : GoError := .errorString "http: named cookie not present"

/-- The sentinel `context.Canceled`. -/
def Canceled : GoError := .errorString "context canceled"

/-- The sentinel `context.DeadlineExceeded`. -/
def DeadlineExceeded : GoError := .errorString "context deadline exceeded"

/-- A cancellation-class error: its chain reaches `context.Canceled` or
`context.DeadlineExceeded`. -/
def GoError.isCancellation (e : GoError) : Bool :=
  e.Is Canceled || e.Is DeadlineExceeded

/-- Modelled from the spec: the record type `session.Session`, declared in
the package `database/repository/session`.  The validator reads `UserId` and
`ExpiresAt`; `Id` is the key the record is stored under. -/
structure Session where
  Id : UUID
  UserId : String
  ExpiresAt : Time
  deriving DecidableEq

/-- Modelled from the spec: the record type `user.User`, declared in the
package `database/repository/user`: an identifier and profile fields the
validator never looks at. -/
structure User where
  Id : String
  Profile : List (String × String)
  deriving DecidableEq

/-- The struct `AuthenticationObject`.  Both fields are pointers, so either
may be nil. -/
structure AuthenticationObject where
  User : Option User
  Session : Option Session
  deriving DecidableEq

/-! ## Collaborators -/

/-- The request's `context.Context`: `Err` is nil while the request is live
and is the cancellation error once it was cancelled or timed out. -/
structure Ctx where
  Err : Option GoError
  deriving DecidableEq

/-- One cookie of a request, value already unescaped. -/
structure Cookie where
  Name : String
  Value : String
  deriving DecidableEq

/-- The incoming `http.Request`: its cookies in header order, and its
context. -/
structure Request where
  Cookies : List Cookie
  Context : Ctx
  deriving DecidableEq

/-- The `gin.Context` of a request. -/
structure Context where
  Request : Request
  deriving DecidableEq

/-- The method `c.Cookie(name)`: the value of the first cookie of that name,
or `http.ErrNoCookie` when the request has none. -/
def Context.Cookie (c : Context) (name : String) : Except GoError String :=
  match c.Request.Cookies.find? (fun k => k.Name == name) with
  | some k => .ok k.Value
  | none => .error ErrNoCookie

/-- Modelled from the spec: the interface `session.SessionRepository`,
declared in the package `database/repository/session`.  One method, which
returns a Go pair (record pointer, error) and may change the world. -/
structure SessionRepository (σ : Type) where
  GetSessionById : Ctx → UUID → σ → (Option Session × Option GoError) × σ

/-- Modelled from the spec: the interface `user.UserRepository`, declared in
the package `database/repository/user`. -/
structure UserRepository (σ : Type) where
  GetUserById : Ctx → String → σ → (Option User × Option GoError) × σ

/-- A call made on a repository, with the identifier passed. -/
inductive Call where
  | GetSessionById (id : UUID)
  | GetUserById (id : String)
  deriving DecidableEq

/-! ## The validator -/

/-- How a call of `ValidateRequest` ends: it returns its Go pair
(object pointer, error), or it dereferences a nil session pointer and
panics. -/
inductive Outcome where
  | returned (auth : Option AuthenticationObject) (err : Option GoError)
  | nilDereference
  deriving DecidableEq

/-- A finished call: how it ended, the repository calls it made in order,
and the world it left behind. -/
structure Run (σ : Type) where
  outcome : Outcome
  calls : List Call
  world : σ

/-- The function `ValidateRequest`.  `Parse` is the library function
`uuid.Parse` and `now` is the value `time.Now()` yields at the expiry
check; `w` is the world at the start of the call. -/
def ValidateRequest {σ : Type} (Parse : String → Except GoError UUID) (now : Time)
    (c : Context) (userRepository : UserRepository σ)
    (sessionRepository : SessionRepository σ) (w : σ) : Run σ :=
  match c.Cookie "session" with
  | .error err =>
    ⟨.returned none (some (Errorf "failed to validate request: " err)), [], w⟩
  | .ok v =>
    match Parse v with
    | .error err =>
      ⟨.returned none (some (Errorf "invalid session id: " err)), [], w⟩
    | .ok uuid =>
      match sessionRepository.GetSessionById c.Request.Context uuid w with
      | ((_, some err), w1) =>
        ⟨.returned none (some (Errorf "failed to find session with given id: " err)),
          [.GetSessionById uuid], w1⟩
      | ((none, none), w1) =>
        ⟨.nilDereference, [.GetSessionById uuid], w1⟩
      | ((some session, none), w1) =>
        if now.After session.ExpiresAt then
          ⟨.returned none (some (.errorString "session has expired")),
            [.GetSessionById uuid], w1⟩
        else
          match userRepository.GetUserById c.Request.Context session.UserId w1 with
          | ((_, some err), w2) =>
            ⟨.returned none
                (some (Errorf "failed to find user from session's user id: " err)),
              [.GetSessionById uuid, .GetUserById session.UserId], w2⟩
          | ((user, none), w2) =>
            ⟨.returned (some ⟨user, some session⟩) none,
              [.GetSessionById uuid, .GetUserById session.UserId], w2⟩

/-- The repository call belongs to the session repository. -/
def Call.isSession : Call → Bool
  | .GetSessionById _ => true
  | .GetUserById _ => false

/-- The repository call belongs to the user repository. -/
def Call.isUser : Call → Bool
  | .GetSessionById _ => false
  | .GetUserById _ => true

/-- The session repository finds the session stored under `id`: the lookup
returns a record and a nil error, and the record is the one keyed by `id`. -/
def SessionRepository.Finds {σ : Type} (repo : SessionRepository σ) (ctx : Ctx)
    (id : UUID) (w : σ) (s : Session) (w1 : σ) : Prop :=
  repo.GetSessionById ctx id w = ((some s, none), w1) ∧ s.Id = id

/-- The user repository finds the user stored under `id`. -/
def UserRepository.Finds {σ : Type} (repo : UserRepository σ) (ctx : Ctx)
    (id : String) (w : σ) (u : User) (w1 : σ) : Prop :=
  repo.GetUserById ctx id w = ((some u, none), w1) ∧ u.Id = id

/-! ## Test doubles

In-memory repositories over a store that counts the lookups made on it.
They instantiate the repositories in the worked examples below. -/

/-- The backing data of the in-memory repositories, with one lookup counter
per repository. -/
structure Store where
  sessions : List Session
  users : List User
  sessionLookups : Nat
  userLookups : Nat
  deriving DecidableEq

/-- The not-found signal of the in-memory repositories. -/
def ErrNotFound : GoError := .errorString "no rows in result set"

/-- An in-memory `SessionRepository` for the worked examples.  It counts
the call, fails with the context's error when the context is done, and
otherwise returns the first session stored under the identifier or the
not-found signal. -/
def memSessionRepository : SessionRepository Store where
  GetSessionById ctx id st :=
    let st1 := { st with sessionLookups := st.sessionLookups + 1 }
    match ctx.Err with
    | some e => ((none, some e), st1)
    | none =>
      match st.sessions.find? (fun s => s.Id == id) with
      | some s => ((some s, none), st1)
      | none => ((none, some ErrNotFound), st1)

/-- An in-memory `UserRepository` for the worked examples, built like
`memSessionRepository`. -/
def memUserRepository : UserRepository Store where
  GetUserById ctx id st :=
    let st1 := { st with userLookups := st.userLookups + 1 }
    match ctx.Err with
    | some e => ((none, some e), st1)
    | none =>
      match st.users.find? (fun u => u.Id == id) with
      | some u => ((some u, none), st1)
      | none => ((none, some ErrNotFound), st1)

/-! ## The library function `uuid.Parse`

Line 28 hands the cookie value to `uuid.Parse` of `github.com/google/uuid`.
The function works on the bytes of the string.  It accepts four shapes: the
36-byte form `xxxxxxxx-xxxx-xxxx-xxxx-xxxxxxxxxxxx`, that form after the nine
bytes `urn:uuid:` in any letter case, that form between two bytes that are
not looked at (38 bytes), and 32 hexadecimal digits without hyphens. -/

/-- The bytes of a Go string: the UTF-8 encoding of its characters. -/
def goBytes (s : String) : List Nat :=
  s.data.flatMap (fun ch => (String.utf8EncodeChar ch).map UInt8.toNat)

/-- The table `xvalues` of package `uuid`: the value of a byte that is a
hexadecimal digit, and 255 for every other byte. -/
def xvalue (b : Nat) : Nat :=
  if 48 ≤ b ∧ b ≤ 57 then b - 48
  else if 65 ≤ b ∧ b ≤ 70 then b - 55
  else if 97 ≤ b ∧ b ≤ 102 then b - 87
  else 255

/-- The function `xtob` of package `uuid`: the byte `(b1 << 4) | b2` made of
two digit bytes, and whether both were hexadecimal digits. -/
def xtob (x1 x2 : Nat) : Nat × Bool :=
  (((xvalue x1 <<< 4) % 256) ||| xvalue x2, xvalue x1 != 255 && xvalue x2 != 255)

/-- The decoding loop of `uuid.Parse`: one byte from the two digits at each
of the given offsets of `s`, or nothing as soon as a pair is not
hexadecimal. -/
def decodeAt (s : List Nat) : List Nat → Option (List Nat)
  | [] => some []
  | x :: xs =>
    match xtob (s.getD x 0) (s.getD (x + 1) 0) with
    | (v, true) =>
      match decodeAt s xs with
      | some rest => some (v :: rest)
      | none => none
    | (_, false) => none

/-- The offsets of the sixteen digit pairs in the hyphenated form. -/
def hyphenatedOffsets : List Nat :=
  [0, 2, 4, 6, 9, 11, 14, 16, 19, 21, 24, 26, 28, 30, 32, 34]

/-- The offsets of the sixteen digit pairs in the form without hyphens. -/
def bareOffsets : List Nat :=
  [0, 2, 4, 6, 8, 10, 12, 14, 16, 18, 20, 22, 24, 26, 28, 30]

/-- The tail of `uuid.Parse`, run on a string of at least 36 bytes: hyphens
at offsets 8, 13, 18 and 23, digit pairs at the other offsets. -/
def parseHyphenated (s : List Nat) : Except GoError UUID :=
  if s.getD 8 0 ≠ 45 ∨ s.getD 13 0 ≠ 45 ∨ s.getD 18 0 ≠ 45 ∨ s.getD 23 0 ≠ 45 then
    .error (.errorString "invalid UUID format")
  else
    match decodeAt s hyphenatedOffsets with
    | some u => .ok ⟨u⟩
    | none => .error (.errorString "invalid UUID format")

/-- An ASCII letter in lower case, any other byte unchanged. -/
def asciiLower (b : Nat) : Nat :=
  if 65 ≤ b ∧ b ≤ 90 then b + 32 else b

/-- The function `uuid.Parse`.  `quote` is the verb `%q` of package `fmt`,
with which the error of the `urn:uuid:` branch prints the nine bytes it
found.  The test `strings.EqualFold(s[:9], "urn:uuid:")` compares nine bytes
with nine ASCII characters, so it is a comparison of ASCII letters without
regard to case. -/
def uuid.Parse (quote : List Nat → String) (s : String) : Except GoError UUID :=
  let b := goBytes s
  if b.length = 36 then
    parseHyphenated b
  else if b.length = 36 + 9 then
    if (b.take 9).map asciiLower ≠ goBytes "urn:uuid:" then
      .error (.errorString ("invalid urn prefix: " ++ quote (b.take 9)))
    else
      parseHyphenated (b.drop 9)
  else if b.length = 36 + 2 then
    parseHyphenated (b.drop 1)
  else if b.length = 32 then
    match decodeAt b bareOffsets with
    | some u => .ok ⟨u⟩
    | none => .error (.errorString "invalid UUID format")
  else
    .error (.errorString ("invalid UUID length: " ++ toString b.length))

/-- Modelled from the spec: the canonical textual form of a session
identifier, `xxxxxxxx-xxxx-xxxx-xxxx-xxxxxxxxxxxx`: 36 bytes, a hyphen at
offsets 8, 13, 18 and 23, and a hexadecimal digit at every other offset. -/
def isCanonicalText (s : String) : Bool :=
  let b := goBytes s
  b.length == 36 && b.getD 8 0 == 45 && b.getD 13 0 == 45 && b.getD 18 0 == 45 &&
    b.getD 23 0 == 45 &&
    hyphenatedOffsets.all
      (fun x => xvalue (b.getD x 0) != 255 && xvalue (b.getD (x + 1) 0) != 255)

/-- The verb `%q` on bytes that are printable ASCII other than the double
quote and the backslash: the text between double quotes. -/
def quotePlain (b : List Nat) : String :=
  "\"" ++ String.mk (b.map Char.ofNat) ++ "\""

/-- The function `uuid.Parse` as the worked examples use it. -/
def parseUUID : String → Except GoError UUID :=
  uuid.Parse quotePlain

/-- The identifier `3fa85f64-5717-4562-b3fc-2c963f66afa6`. -/
def sampleId : UUID :=
  ⟨[63, 168, 95, 100, 87, 23, 69, 98, 179, 252, 44, 150, 63, 102, 175, 166]⟩

/-- The instant 2020-01-01T00:00:00Z. -/
def t2020 : Time := ⟨1577836800000000000⟩

/-- The instant 2025-01-01T00:00:00Z. -/
def t2025 : Time := ⟨1735689600000000000⟩

/-- The instant 2030-01-01T00:00:00Z. -/
def t2030 : Time := ⟨1893456000000000000⟩

/-- A live request context. -/
def liveCtx : Ctx := ⟨none⟩

/-- A request carrying the session cookie `v` on a context `ctx`. -/
def requestWith (v : String) (ctx : Ctx) : Context :=
  ⟨⟨[⟨"theme", "dark"⟩, ⟨"session", v⟩], ctx⟩⟩

/-- A request that carries the sample identifier as its session cookie. -/
def sampleRequest : Context :=
  requestWith "3fa85f64-5717-4562-b3fc-2c963f66afa6" liveCtx

/-- The user `u1`. -/
def userU1 : User := ⟨"u1", [("name", "Ada")]⟩

/-- The sample session of user `u1`, expiring at `exp`. -/
def sessionUntil (exp : Time) : Session := ⟨sampleId, "u1", exp⟩

/-- A store holding the sample session with expiry `exp` and the user `u1`,
with both counters at zero. -/
def storeUntil (exp : Time) : Store := ⟨[sessionUntil exp], [userU1], 0, 0⟩

/-! ## Basic facts about the collaborators -/

/-- A request without a cookie of the given name makes `Cookie` answer
`http.ErrNoCookie`. -/
theorem Context.Cookie_of_absent (c : Context) (name : String)
    (h : ∀ k ∈ c.Request.Cookies, k.Name ≠ name) :
    c.Cookie name = .error ErrNoCookie := by
  have hfind : c.Request.Cookies.find? (fun k => k.Name == name) = none := by
    rw [List.find?_eq_none]
    intro k hk
    simpa using h k hk
  simp [Context.Cookie, hfind]

/-- Whenever `Cookie` fails, the failure is `http.ErrNoCookie`. -/
theorem Context.Cookie_error (c : Context) (name : String) (e : GoError)
    (h : c.Cookie name = .error e) : e = ErrNoCookie := by
  unfold Context.Cookie at h
  split at h
  · cases h
  · cases h
    rfl

/-- Every error is found on its own chain. -/
theorem GoError.Is_self (e : GoError) : e.Is e = true := by
  cases e <;> simp [GoError.Is]

/-- Wrapping keeps every error of the chain reachable. -/
theorem GoError.Is_wrapError (pfx : String) (e target : GoError)
    (h : e.Is target = true) : (GoError.wrapError pfx e).Is target = true := by
  simp [GoError.Is, h]

/-- A wrapper is never the error it wraps. -/
theorem GoError.wrapError_ne (pfx : String) (e : GoError) :
    GoError.wrapError pfx e ≠ e := by
  intro h
  have hsz := congrArg sizeOf h
  simp at hsz

/-- The in-memory session repository returns a record only under its own
identifier. -/
theorem memSessionRepository_key (ctx : Ctx) (id : UUID) (st st1 : Store) (s : Session)
    (h : memSessionRepository.GetSessionById ctx id st = ((some s, none), st1)) :
    s.Id = id := by
  unfold memSessionRepository at h
  simp only at h
  split at h
  · simp at h
  · split at h
    · rename_i s0 hfind
      have hs : s0 = s := by simpa using congrArg (fun r => r.1.1) h
      have := List.find?_some hfind
      subst hs
      simpa using this
    · simp at h

/-- The in-memory user repository returns a record only under its own
identifier. -/
theorem memUserRepository_key (ctx : Ctx) (id : String) (st st1 : Store) (u : User)
    (h : memUserRepository.GetUserById ctx id st = ((some u, none), st1)) :
    u.Id = id := by
  unfold memUserRepository at h
  simp only at h
  split at h
  · simp at h
  · split at h
    · rename_i u0 hfind
      have hu : u0 = u := by simpa using congrArg (fun r => r.1.1) h
      have := List.find?_some hfind
      subst hu
      simpa using this
    · simp at h

/-! ## Credential checks (steps 1 and 2) -/

/-- C4: a request that carries no cookie named `session` makes
`ValidateRequest` return no object and the missing-credential failure (the
cookie error `http.ErrNoCookie` under the text "failed to validate
request: "); no repository is called and the world is left untouched. -/
theorem validate_missing_cookie {σ : Type} (Parse : String → Except GoError UUID)
    (now : Time) (c : Context) (userRepository : UserRepository σ)
    (sessionRepository : SessionRepository σ) (w : σ)
    (h : ∀ k ∈ c.Request.Cookies, k.Name ≠ "session") :
    ValidateRequest Parse now c userRepository sessionRepository w =
      ⟨.returned none (some (.wrapError "failed to validate request: " ErrNoCookie)),
        [], w⟩ := by
  have hc := Context.Cookie_of_absent c "session" h
  simp [ValidateRequest, hc, Errorf]

/-- C4 at a request whose only cookie is `theme`, against the in-memory
repositories: the lookup counters of the store stay at zero. -/
theorem validate_missing_cookie_witness :
    (∀ k ∈ (Context.mk ⟨[⟨"theme", "dark"⟩], liveCtx⟩).Request.Cookies,
        k.Name ≠ "session") ∧
    ValidateRequest parseUUID t2025 (Context.mk ⟨[⟨"theme", "dark"⟩], liveCtx⟩)
        memUserRepository memSessionRepository (storeUntil t2030) =
      ⟨.returned none (some (.wrapError "failed to validate request: " ErrNoCookie)),
        [], storeUntil t2030⟩ :=
  ⟨by decide,
   validate_missing_cookie parseUUID t2025 (Context.mk ⟨[⟨"theme", "dark"⟩], liveCtx⟩)
     memUserRepository memSessionRepository (storeUntil t2030) (by decide)⟩

/-- Whatever parser is plugged in, a parse error ends the call at the second
return statement, before any repository is touched. -/
theorem ValidateRequest_parse_error {σ : Type} (Parse : String → Except GoError UUID)
    (now : Time) (c : Context) (userRepository : UserRepository σ)
    (sessionRepository : SessionRepository σ) (w : σ) (v : String) (e : GoError)
    (hc : c.Cookie "session" = .ok v) (hp : Parse v = .error e) :
    ValidateRequest Parse now c userRepository sessionRepository w =
      ⟨.returned none (some (.wrapError "invalid session id: " e)), [], w⟩ := by
  simp [ValidateRequest, hc, hp, Errorf]

/-- The decoding loop succeeds when every pair it visits is hexadecimal. -/
theorem decodeAt_of_digits (s : List Nat) (xs : List Nat)
    (h : ∀ x ∈ xs,
      (xvalue (s.getD x 0) != 255 && xvalue (s.getD (x + 1) 0) != 255) = true) :
    ∃ u, decodeAt s xs = some u := by
  induction xs with
  | nil => exact ⟨[], rfl⟩
  | cons x xs ih =>
    obtain ⟨rest, hrest⟩ := ih (fun y hy => h y (List.mem_cons_of_mem x hy))
    have hx := h x (List.mem_cons_self x xs)
    refine ⟨((xvalue (s.getD x 0) <<< 4) % 256 ||| xvalue (s.getD (x + 1) 0)) :: rest, ?_⟩
    simp only [decodeAt, xtob, hx, hrest]

/-- The function `uuid.Parse` accepts every text in canonical form. -/
theorem uuid.Parse_of_canonical (quote : List Nat → String) (s : String)
    (h : isCanonicalText s = true) : ∃ id, uuid.Parse quote s = .ok id := by
  simp only [isCanonicalText, Bool.and_eq_true, beq_iff_eq, List.all_eq_true] at h
  obtain ⟨⟨⟨⟨⟨hlen, h8⟩, h13⟩, h18⟩, h23⟩, hdig⟩ := h
  obtain ⟨u, hu⟩ := decodeAt_of_digits (goBytes s) hyphenatedOffsets
    (fun x hx => by simpa using hdig x hx)
  have hh : ¬ ((goBytes s).getD 8 0 ≠ 45 ∨ (goBytes s).getD 13 0 ≠ 45 ∨
      (goBytes s).getD 18 0 ≠ 45 ∨ (goBytes s).getD 23 0 ≠ 45) := by
    rw [h8, h13, h18, h23]
    decide
  refine ⟨⟨u⟩, ?_⟩
  simp only [uuid.Parse, hlen, if_true, parseHyphenated, if_neg hh, hu]

/-- C3, as stated, fails: three cookie values that are not in canonical form
are accepted by `uuid.Parse`, namely the sample identifier written as 32
digits without hyphens, written after `urn:uuid:`, and written between
braces.  For the first of them `ValidateRequest` is also run against the
in-memory repositories: it queries both and returns the user and the session
with a nil error. -/
theorem validate_noncanonical_accepted :
    isCanonicalText "3fa85f6457174562b3fc2c963f66afa6" = false ∧
    isCanonicalText "urn:uuid:3fa85f64-5717-4562-b3fc-2c963f66afa6" = false ∧
    isCanonicalText "\x7b3fa85f64-5717-4562-b3fc-2c963f66afa6\x7d" = false ∧
    parseUUID "3fa85f6457174562b3fc2c963f66afa6" = .ok sampleId ∧
    parseUUID "urn:uuid:3fa85f64-5717-4562-b3fc-2c963f66afa6" = .ok sampleId ∧
    parseUUID "\x7b3fa85f64-5717-4562-b3fc-2c963f66afa6\x7d" = .ok sampleId ∧
    (requestWith "3fa85f6457174562b3fc2c963f66afa6" liveCtx).Cookie "session" =
      .ok "3fa85f6457174562b3fc2c963f66afa6" ∧
    (ValidateRequest parseUUID t2025
        (requestWith "3fa85f6457174562b3fc2c963f66afa6" liveCtx)
        memUserRepository memSessionRepository (storeUntil t2030)).outcome =
      .returned (some ⟨some userU1, some (sessionUntil t2030)⟩) none ∧
    (ValidateRequest parseUUID t2025
        (requestWith "3fa85f6457174562b3fc2c963f66afa6" liveCtx)
        memUserRepository memSessionRepository (storeUntil t2030)).calls =
      [.GetSessionById sampleId, .GetUserById "u1"] ∧
    (ValidateRequest parseUUID t2025
        (requestWith "3fa85f6457174562b3fc2c963f66afa6" liveCtx)
        memUserRepository memSessionRepository (storeUntil t2030)).world =
      ⟨[sessionUntil t2030], [userU1], 1, 1⟩ :=
  ⟨by decide, by decide, by decide, rfl, rfl, rfl, rfl, by decide, by decide, by decide⟩

/-- C3 (amended): when the value of the `session` cookie is rejected by
`uuid.Parse`, `ValidateRequest` returns no object and the
malformed-credential failure (the parse error under the text "invalid
session id: "); the call log is empty, so neither repository was called, and
the world is left untouched.  Every value that `uuid.Parse` rejects is
outside the canonical form. -/
theorem validate_malformed_cookie {σ : Type} (quote : List Nat → String)
    (now : Time) (c : Context) (userRepository : UserRepository σ)
    (sessionRepository : SessionRepository σ) (w : σ) (v : String) (e : GoError)
    (hc : c.Cookie "session" = .ok v) (hp : uuid.Parse quote v = .error e) :
    ValidateRequest (uuid.Parse quote) now c userRepository sessionRepository w =
      ⟨.returned none (some (.wrapError "invalid session id: " e)), [], w⟩ ∧
    isCanonicalText v = false := by
  refine ⟨ValidateRequest_parse_error (uuid.Parse quote) now c userRepository
    sessionRepository w v e hc hp, ?_⟩
  cases hcan : isCanonicalText v with
  | false => rfl
  | true =>
    obtain ⟨id, hid⟩ := uuid.Parse_of_canonical quote v hcan
    rw [hid] at hp
    cases hp

/-- C3 (amended) at the cookie value `not-a-uuid`, against the in-memory
repositories: the lookup counters of the store stay at zero. -/
theorem validate_malformed_cookie_witness :
    (requestWith "not-a-uuid" liveCtx).Cookie "session" = .ok "not-a-uuid" ∧
    uuid.Parse quotePlain "not-a-uuid" =
      .error (.errorString "invalid UUID length: 10") ∧
    ValidateRequest (uuid.Parse quotePlain) t2025 (requestWith "not-a-uuid" liveCtx)
        memUserRepository memSessionRepository (storeUntil t2030) =
      ⟨.returned none
          (some (.wrapError "invalid session id: "
            (.errorString "invalid UUID length: 10"))),
        [], storeUntil t2030⟩ ∧
    isCanonicalText "not-a-uuid" = false :=
  ⟨rfl, rfl,
   validate_malformed_cookie quotePlain t2025 (requestWith "not-a-uuid" liveCtx)
     memUserRepository memSessionRepository (storeUntil t2030) "not-a-uuid"
     (.errorString "invalid UUID length: 10") rfl rfl⟩

/-! ## Expiry (step 4) -/

/-- C1, as stated, fails at the boundary: with `expiresAt` and `now` both
2020-01-01T00:00:00Z the session is found, `expiresAt <= now` holds, and
`ValidateRequest` goes on to the user lookup and succeeds instead of
reporting `session has expired`. -/
theorem validate_expiry_boundary_accepted :
    sampleRequest.Cookie "session" = .ok "3fa85f64-5717-4562-b3fc-2c963f66afa6" ∧
    parseUUID "3fa85f64-5717-4562-b3fc-2c963f66afa6" = .ok sampleId ∧
    memSessionRepository.GetSessionById sampleRequest.Request.Context sampleId
        (storeUntil t2020) =
      ((some (sessionUntil t2020), none), ⟨[sessionUntil t2020], [userU1], 1, 0⟩) ∧
    (sessionUntil t2020).ExpiresAt.unixNano ≤ t2020.unixNano ∧
    (ValidateRequest parseUUID t2020 sampleRequest memUserRepository
        memSessionRepository (storeUntil t2020)).outcome =
      .returned (some ⟨some userU1, some (sessionUntil t2020)⟩) none ∧
    (ValidateRequest parseUUID t2020 sampleRequest memUserRepository
        memSessionRepository (storeUntil t2020)).calls =
      [.GetSessionById sampleId, .GetUserById "u1"] :=
  ⟨rfl, rfl, rfl, by decide, by decide, by decide⟩

/-- C1 (amended): when the `session` cookie parses to an identifier that the
session repository resolves to a record, then at every `now` strictly later
than the record's `expiresAt` `ValidateRequest` returns no object and the
failure `session has expired`, after the one session lookup.  At the
boundary, with `now` equal to `expiresAt`, the record passes the expiry
check: the call does not end in `session has expired`, it queries the user
repository with the record's `userId`, and it succeeds when that lookup
returns a user. -/
theorem validate_expired {σ : Type} (Parse : String → Except GoError UUID)
    (c : Context) (userRepository : UserRepository σ)
    (sessionRepository : SessionRepository σ) (w w1 : σ) (v : String) (id : UUID)
    (s : Session)
    (hc : c.Cookie "session" = .ok v) (hp : Parse v = .ok id)
    (hs : sessionRepository.GetSessionById c.Request.Context id w =
      ((some s, none), w1)) :
    (∀ now : Time, s.ExpiresAt.unixNano < now.unixNano →
      ValidateRequest Parse now c userRepository sessionRepository w =
        ⟨.returned none (some (.errorString "session has expired")),
          [.GetSessionById id], w1⟩) ∧
    (∀ now : Time, s.ExpiresAt.unixNano = now.unixNano →
      (ValidateRequest Parse now c userRepository sessionRepository w).outcome ≠
        .returned none (some (.errorString "session has expired")) ∧
      (ValidateRequest Parse now c userRepository sessionRepository w).calls =
        [.GetSessionById id, .GetUserById s.UserId] ∧
      ∀ u w2,
        userRepository.GetUserById c.Request.Context s.UserId w1 =
          ((some u, none), w2) →
        ValidateRequest Parse now c userRepository sessionRepository w =
          ⟨.returned (some ⟨some u, some s⟩) none,
            [.GetSessionById id, .GetUserById s.UserId], w2⟩) := by
  constructor
  · intro now ht
    simp [ValidateRequest, hc, hp, hs, Time.After, ht]
  · intro now ht
    have hna : now.After s.ExpiresAt = false := by
      simp only [Time.After, decide_eq_false_iff_not]
      omega
    refine ⟨?_, ?_, ?_⟩
    · rcases hur : userRepository.GetUserById c.Request.Context s.UserId w1 with
        ⟨⟨p, oe⟩, w2⟩
      cases oe <;> simp [ValidateRequest, hc, hp, hs, hna, hur, Errorf]
    · rcases hur : userRepository.GetUserById c.Request.Context s.UserId w1 with
        ⟨⟨p, oe⟩, w2⟩
      cases oe <;> simp [ValidateRequest, hc, hp, hs, hna, hur]
    · intro u w2 hur
      simp [ValidateRequest, hc, hp, hs, hna, hur]

/-- C1 (amended) at the scenario of the specification, `expiresAt`
2020-01-01T00:00:00Z and `now` 2025-01-01T00:00:00Z, and at the boundary
`now` 2020-01-01T00:00:00Z, against the in-memory repositories. -/
theorem validate_expired_witness :
    (sessionUntil t2020).ExpiresAt.unixNano < t2025.unixNano ∧
    ValidateRequest parseUUID t2025 sampleRequest memUserRepository
        memSessionRepository (storeUntil t2020) =
      ⟨.returned none (some (.errorString "session has expired")),
        [.GetSessionById sampleId], ⟨[sessionUntil t2020], [userU1], 1, 0⟩⟩ ∧
    (sessionUntil t2020).ExpiresAt.unixNano = t2020.unixNano ∧
    ValidateRequest parseUUID t2020 sampleRequest memUserRepository
        memSessionRepository (storeUntil t2020) =
      ⟨.returned (some ⟨some userU1, some (sessionUntil t2020)⟩) none,
        [.GetSessionById sampleId, .GetUserById "u1"],
        ⟨[sessionUntil t2020], [userU1], 1, 1⟩⟩ :=
  ⟨by decide,
   (validate_expired parseUUID sampleRequest memUserRepository
     memSessionRepository (storeUntil t2020) ⟨[sessionUntil t2020], [userU1], 1, 0⟩
     "3fa85f64-5717-4562-b3fc-2c963f66afa6" sampleId (sessionUntil t2020)
     rfl rfl rfl).1 t2025 (by decide),
   rfl,
   ((validate_expired parseUUID sampleRequest memUserRepository
     memSessionRepository (storeUntil t2020) ⟨[sessionUntil t2020], [userU1], 1, 0⟩
     "3fa85f64-5717-4562-b3fc-2c963f66afa6" sampleId (sessionUntil t2020)
     rfl rfl rfl).2 t2020 rfl).2.2 userU1 ⟨[sessionUntil t2020], [userU1], 1, 1⟩ rfl⟩

/-! ## Success (step 6) -/

/-- C2: when the `session` cookie parses as a UUID, the session repository
finds the session stored under it, `now` is before its `expiresAt`, and the
user repository finds the owning user, `ValidateRequest` returns a nil error
and an object that pairs exactly those two records: its session carries the
parsed identifier and its user carries the session's `userId`. -/
theorem validate_success {σ : Type} (Parse : String → Except GoError UUID)
    (now : Time) (c : Context) (userRepository : UserRepository σ)
    (sessionRepository : SessionRepository σ) (w w1 w2 : σ) (v : String) (id : UUID)
    (s : Session) (u : User)
    (hc : c.Cookie "session" = .ok v) (hp : Parse v = .ok id)
    (hs : sessionRepository.Finds c.Request.Context id w s w1)
    (ht : now.unixNano < s.ExpiresAt.unixNano)
    (hu : userRepository.Finds c.Request.Context s.UserId w1 u w2) :
    ∃ auth session user,
      (ValidateRequest Parse now c userRepository sessionRepository w).outcome =
        .returned (some auth) none ∧
      auth = ⟨some u, some s⟩ ∧
      auth.Session = some session ∧ auth.User = some user ∧
      session.Id = id ∧ user.Id = session.UserId := by
  obtain ⟨hs, hsid⟩ := hs
  obtain ⟨hu, huid⟩ := hu
  have hna : now.After s.ExpiresAt = false := by
    simp only [Time.After, decide_eq_false_iff_not]
    omega
  refine ⟨⟨some u, some s⟩, s, u, ?_, rfl, rfl, rfl, hsid, huid⟩
  simp [ValidateRequest, hc, hp, hs, hna, hu]

/-- C2 at the scenario of the specification: cookie
`3fa85f64-5717-4562-b3fc-2c963f66afa6`, user `u1`, `expiresAt` 2030-01-01 and
`now` 2025-01-01, against the in-memory repositories. -/
theorem validate_success_witness :
    sampleRequest.Cookie "session" = .ok "3fa85f64-5717-4562-b3fc-2c963f66afa6" ∧
    parseUUID "3fa85f64-5717-4562-b3fc-2c963f66afa6" = .ok sampleId ∧
    t2025.unixNano < (sessionUntil t2030).ExpiresAt.unixNano ∧
    ∃ auth session user,
      (ValidateRequest parseUUID t2025 sampleRequest memUserRepository
          memSessionRepository (storeUntil t2030)).outcome =
        .returned (some auth) none ∧
      auth = ⟨some userU1, some (sessionUntil t2030)⟩ ∧
      auth.Session = some session ∧ auth.User = some user ∧
      session.Id = sampleId ∧ user.Id = session.UserId :=
  ⟨rfl, rfl, by decide,
   validate_success parseUUID t2025 sampleRequest memUserRepository
    memSessionRepository (storeUntil t2030) ⟨[sessionUntil t2030], [userU1], 1, 0⟩
    ⟨[sessionUntil t2030], [userU1], 1, 1⟩ "3fa85f64-5717-4562-b3fc-2c963f66afa6"
    sampleId (sessionUntil t2030) userU1 rfl rfl ⟨rfl, rfl⟩ (by decide) ⟨rfl, rfl⟩⟩

/-! ## Repository failures (steps 3 and 5) -/

/-- C5, as stated, fails: the in-memory session repository signals not-found
for an identifier it does not hold and fails with
`context.DeadlineExceeded` on a timed-out request, and for both
`ValidateRequest` builds the failure with the same return statement.  The
two failures carry the same text of the validator and differ only in the
cause they wrap. -/
theorem validate_session_failures_same_kind :
    (ValidateRequest parseUUID t2025 sampleRequest memUserRepository
        memSessionRepository ⟨[], [userU1], 0, 0⟩).outcome =
      .returned none
        (some (.wrapError "failed to find session with given id: " ErrNotFound)) ∧
    (ValidateRequest parseUUID t2025
        (requestWith "3fa85f64-5717-4562-b3fc-2c963f66afa6" ⟨some DeadlineExceeded⟩)
        memUserRepository memSessionRepository (storeUntil t2030)).outcome =
      .returned none
        (some (.wrapError "failed to find session with given id: " DeadlineExceeded)) ∧
    (GoError.wrapError "failed to find session with given id: " ErrNotFound).ownText =
      (GoError.wrapError "failed to find session with given id: "
        DeadlineExceeded).ownText ∧
    ErrNotFound ≠ DeadlineExceeded :=
  ⟨by decide, by decide, rfl, by decide⟩

/-- C5 (amended): when the `session` cookie parses to an identifier and the
session repository answers the lookup with an error `e`, be it its not-found
signal or any other failure, `ValidateRequest` returns no object and the
one session-lookup failure: the text "failed to find session with given
id: " wrapped around `e`.  The user repository is not called. -/
theorem validate_session_lookup_failed {σ : Type} (Parse : String → Except GoError UUID)
    (now : Time) (c : Context) (userRepository : UserRepository σ)
    (sessionRepository : SessionRepository σ) (w w1 : σ) (v : String) (id : UUID)
    (p : Option Session) (e : GoError)
    (hc : c.Cookie "session" = .ok v) (hp : Parse v = .ok id)
    (hs : sessionRepository.GetSessionById c.Request.Context id w = ((p, some e), w1)) :
    ValidateRequest Parse now c userRepository sessionRepository w =
      ⟨.returned none (some (.wrapError "failed to find session with given id: " e)),
        [.GetSessionById id], w1⟩ := by
  simp [ValidateRequest, hc, hp, hs, Errorf]

/-- C5 (amended) at a store that holds no session: the not-found signal of
the in-memory repository comes back wrapped. -/
theorem validate_session_lookup_failed_witness :
    ValidateRequest parseUUID t2025 sampleRequest memUserRepository
        memSessionRepository ⟨[], [userU1], 0, 0⟩ =
      ⟨.returned none
          (some (.wrapError "failed to find session with given id: " ErrNotFound)),
        [.GetSessionById sampleId], ⟨[], [userU1], 1, 0⟩⟩ :=
  validate_session_lookup_failed parseUUID t2025 sampleRequest memUserRepository
    memSessionRepository ⟨[], [userU1], 0, 0⟩ ⟨[], [userU1], 1, 0⟩
    "3fa85f64-5717-4562-b3fc-2c963f66afa6" sampleId none ErrNotFound rfl rfl rfl

/-- C6: when the session is found and `now` is before its `expiresAt`, but
the user repository answers the lookup of the session's `userId` with an
error `e` (its not-found signal), `ValidateRequest` returns the user-lookup
failure, the text "failed to find user from session's user id: " wrapped
around `e`, and a nil object: the session that was found is not handed
out. -/
theorem validate_user_lookup_failed {σ : Type} (Parse : String → Except GoError UUID)
    (now : Time) (c : Context) (userRepository : UserRepository σ)
    (sessionRepository : SessionRepository σ) (w w1 w2 : σ) (v : String) (id : UUID)
    (s : Session) (p : Option User) (e : GoError)
    (hc : c.Cookie "session" = .ok v) (hp : Parse v = .ok id)
    (hs : sessionRepository.GetSessionById c.Request.Context id w = ((some s, none), w1))
    (ht : now.unixNano < s.ExpiresAt.unixNano)
    (hu : userRepository.GetUserById c.Request.Context s.UserId w1 = ((p, some e), w2)) :
    ValidateRequest Parse now c userRepository sessionRepository w =
      ⟨.returned none
          (some (.wrapError "failed to find user from session's user id: " e)),
        [.GetSessionById id, .GetUserById s.UserId], w2⟩ := by
  have hna : now.After s.ExpiresAt = false := by
    simp only [Time.After, decide_eq_false_iff_not]
    omega
  simp [ValidateRequest, hc, hp, hs, hna, hu, Errorf]

/-- C6 at a store that holds the sample session but no user. -/
theorem validate_user_lookup_failed_witness :
    ValidateRequest parseUUID t2025 sampleRequest memUserRepository
        memSessionRepository ⟨[sessionUntil t2030], [], 0, 0⟩ =
      ⟨.returned none
          (some (.wrapError "failed to find user from session's user id: " ErrNotFound)),
        [.GetSessionById sampleId, .GetUserById "u1"],
        ⟨[sessionUntil t2030], [], 1, 1⟩⟩ :=
  validate_user_lookup_failed parseUUID t2025 sampleRequest memUserRepository
    memSessionRepository ⟨[sessionUntil t2030], [], 0, 0⟩ ⟨[sessionUntil t2030], [], 1, 0⟩
    ⟨[sessionUntil t2030], [], 1, 1⟩ "3fa85f64-5717-4562-b3fc-2c963f66afa6" sampleId
    (sessionUntil t2030) none ErrNotFound rfl rfl rfl (by decide) rfl

/-- C8: whenever a repository call made by `ValidateRequest` returns an
error `e`, from `GetSessionById` or, after a session was found and passed
the expiry check, from `GetUserById`, the call returns no object and an
error that wraps `e`: unwrapping it once gives `e` back. -/
theorem validate_wraps_repository_error {σ : Type}
    (Parse : String → Except GoError UUID) (now : Time) (c : Context)
    (userRepository : UserRepository σ) (sessionRepository : SessionRepository σ)
    (w : σ) (v : String) (id : UUID) (e : GoError)
    (hc : c.Cookie "session" = .ok v) (hp : Parse v = .ok id)
    (h : (∃ p w1,
            sessionRepository.GetSessionById c.Request.Context id w = ((p, some e), w1)) ∨
         (∃ s w1 p w2,
            sessionRepository.GetSessionById c.Request.Context id w =
              ((some s, none), w1) ∧
            now.After s.ExpiresAt = false ∧
            userRepository.GetUserById c.Request.Context s.UserId w1 =
              ((p, some e), w2))) :
    ∃ err,
      (ValidateRequest Parse now c userRepository sessionRepository w).outcome =
        .returned none (some err) ∧
      err.Unwrap = some e := by
  rcases h with ⟨p, w1, hs⟩ | ⟨s, w1, p, w2, hs, hna, hu⟩
  · exact ⟨.wrapError "failed to find session with given id: " e,
      by simp [ValidateRequest, hc, hp, hs, Errorf], rfl⟩
  · exact ⟨.wrapError "failed to find user from session's user id: " e,
      by simp [ValidateRequest, hc, hp, hs, hna, hu, Errorf], rfl⟩

/-- C8 at a store that holds the sample session but no user: the not-found
signal of the user repository is the cause of the returned error. -/
theorem validate_wraps_repository_error_witness :
    ∃ err,
      (ValidateRequest parseUUID t2025 sampleRequest memUserRepository
          memSessionRepository ⟨[sessionUntil t2030], [], 0, 0⟩).outcome =
        .returned none (some err) ∧
      err.Unwrap = some ErrNotFound :=
  validate_wraps_repository_error parseUUID t2025 sampleRequest memUserRepository
    memSessionRepository ⟨[sessionUntil t2030], [], 0, 0⟩
    "3fa85f64-5717-4562-b3fc-2c963f66afa6" sampleId ErrNotFound rfl rfl
    (Or.inr ⟨sessionUntil t2030, ⟨[sessionUntil t2030], [], 1, 0⟩, none,
      ⟨[sessionUntil t2030], [], 1, 1⟩, rfl, by decide, rfl⟩)

/-- C9, as stated, fails: on a cancelled request the in-memory session
repository fails with `context.Canceled`, and `ValidateRequest` does not
return that error itself but a new error that wraps it. -/
theorem validate_cancellation_not_unchanged :
    memSessionRepository.GetSessionById ⟨some Canceled⟩ sampleId (storeUntil t2030) =
      ((none, some Canceled), ⟨[sessionUntil t2030], [userU1], 1, 0⟩) ∧
    Canceled.isCancellation = true ∧
    (ValidateRequest parseUUID t2025
        (requestWith "3fa85f64-5717-4562-b3fc-2c963f66afa6" ⟨some Canceled⟩)
        memUserRepository memSessionRepository (storeUntil t2030)).outcome =
      .returned none
        (some (.wrapError "failed to find session with given id: " Canceled)) ∧
    (ValidateRequest parseUUID t2025
        (requestWith "3fa85f64-5717-4562-b3fc-2c963f66afa6" ⟨some Canceled⟩)
        memUserRepository memSessionRepository (storeUntil t2030)).outcome ≠
      .returned none (some Canceled) :=
  ⟨rfl, by decide, by decide, by decide⟩

/-- C9 (amended): when a repository call made by `ValidateRequest` fails
with a cancellation-class error `e`, the call returns no object and an error
that wraps `e`; `errors.Is` still finds `e` in it, so the returned error is
cancellation-class too.  Nothing is retried: the log holds exactly one call
to the session repository and at most one to the user repository. -/
theorem validate_cancellation_wrapped_once {σ : Type}
    (Parse : String → Except GoError UUID) (now : Time) (c : Context)
    (userRepository : UserRepository σ) (sessionRepository : SessionRepository σ)
    (w : σ) (v : String) (id : UUID) (e : GoError)
    (hc : c.Cookie "session" = .ok v) (hp : Parse v = .ok id)
    (hcancel : e.isCancellation = true)
    (h : (∃ p w1,
            sessionRepository.GetSessionById c.Request.Context id w = ((p, some e), w1)) ∨
         (∃ s w1 p w2,
            sessionRepository.GetSessionById c.Request.Context id w =
              ((some s, none), w1) ∧
            now.After s.ExpiresAt = false ∧
            userRepository.GetUserById c.Request.Context s.UserId w1 =
              ((p, some e), w2))) :
    ∃ err,
      (ValidateRequest Parse now c userRepository sessionRepository w).outcome =
        .returned none (some err) ∧
      err.Unwrap = some e ∧ err.Is e = true ∧ err.isCancellation = true ∧
      (ValidateRequest Parse now c userRepository sessionRepository w).calls.countP
        Call.isSession = 1 ∧
      (ValidateRequest Parse now c userRepository sessionRepository w).calls.countP
        Call.isUser ≤ 1 := by
  have hwrap : ∀ pfx, (GoError.wrapError pfx e).isCancellation = true := by
    intro pfx
    simp only [GoError.isCancellation, Bool.or_eq_true] at hcancel ⊢
    rcases hcancel with hk | hk
    · exact Or.inl (GoError.Is_wrapError pfx e _ hk)
    · exact Or.inr (GoError.Is_wrapError pfx e _ hk)
  rcases h with ⟨p, w1, hs⟩ | ⟨s, w1, p, w2, hs, hna, hu⟩
  · refine ⟨.wrapError "failed to find session with given id: " e, ?_, rfl,
      GoError.Is_wrapError _ e e (GoError.Is_self e), hwrap _, ?_, ?_⟩ <;>
      simp [ValidateRequest, hc, hp, hs, Errorf, Call.isSession, Call.isUser]
  · refine ⟨.wrapError "failed to find user from session's user id: " e, ?_, rfl,
      GoError.Is_wrapError _ e e (GoError.Is_self e), hwrap _, ?_, ?_⟩ <;>
      simp [ValidateRequest, hc, hp, hs, hna, hu, Errorf, Call.isSession, Call.isUser,
        List.countP_cons]

/-- C9 (amended) at a request whose context was cancelled, against the
in-memory repositories. -/
theorem validate_cancellation_wrapped_once_witness :
    ∃ err,
      (ValidateRequest parseUUID t2025
          (requestWith "3fa85f64-5717-4562-b3fc-2c963f66afa6" ⟨some Canceled⟩)
          memUserRepository memSessionRepository (storeUntil t2030)).outcome =
        .returned none (some err) ∧
      err.Unwrap = some Canceled ∧ err.Is Canceled = true ∧ err.isCancellation = true ∧
      (ValidateRequest parseUUID t2025
          (requestWith "3fa85f64-5717-4562-b3fc-2c963f66afa6" ⟨some Canceled⟩)
          memUserRepository memSessionRepository (storeUntil t2030)).calls.countP
        Call.isSession = 1 ∧
      (ValidateRequest parseUUID t2025
          (requestWith "3fa85f64-5717-4562-b3fc-2c963f66afa6" ⟨some Canceled⟩)
          memUserRepository memSessionRepository (storeUntil t2030)).calls.countP
        Call.isUser ≤ 1 :=
  validate_cancellation_wrapped_once parseUUID t2025
    (requestWith "3fa85f64-5717-4562-b3fc-2c963f66afa6" ⟨some Canceled⟩)
    memUserRepository memSessionRepository (storeUntil t2030)
    "3fa85f64-5717-4562-b3fc-2c963f66afa6" sampleId Canceled rfl rfl (by decide)
    (Or.inl ⟨none, ⟨[sessionUntil t2030], [userU1], 1, 0⟩, rfl⟩)

/-! ## Repeated calls and call order -/

/-- C7: take two calls of `ValidateRequest` for the same request, started in
any two worlds `w` and `w'` and made at any two times before the session's
`expiresAt`, with backing data that does not change: in both calls the
session lookup returns the record `s` and the user lookup returns the record
`u`.  Then both calls return a nil error and the same object, the pair of
`u` and `s`. -/
theorem validate_idempotent {σ : Type} (Parse : String → Except GoError UUID)
    (now1 now2 : Time) (c : Context) (userRepository : UserRepository σ)
    (sessionRepository : SessionRepository σ) (w w1 w2 w' w1' w2' : σ) (v : String)
    (id : UUID) (s : Session) (u : User)
    (hc : c.Cookie "session" = .ok v) (hp : Parse v = .ok id)
    (hs1 : sessionRepository.GetSessionById c.Request.Context id w = ((some s, none), w1))
    (hu1 : userRepository.GetUserById c.Request.Context s.UserId w1 = ((some u, none), w2))
    (hs2 : sessionRepository.GetSessionById c.Request.Context id w' =
      ((some s, none), w1'))
    (hu2 : userRepository.GetUserById c.Request.Context s.UserId w1' =
      ((some u, none), w2'))
    (ht1 : now1.unixNano < s.ExpiresAt.unixNano)
    (ht2 : now2.unixNano < s.ExpiresAt.unixNano) :
    (ValidateRequest Parse now1 c userRepository sessionRepository w).outcome =
      .returned (some ⟨some u, some s⟩) none ∧
    (ValidateRequest Parse now2 c userRepository sessionRepository w').outcome =
      .returned (some ⟨some u, some s⟩) none ∧
    (ValidateRequest Parse now1 c userRepository sessionRepository w).outcome =
      (ValidateRequest Parse now2 c userRepository sessionRepository w').outcome := by
  have hna1 : now1.After s.ExpiresAt = false := by
    simp only [Time.After, decide_eq_false_iff_not]
    omega
  have hna2 : now2.After s.ExpiresAt = false := by
    simp only [Time.After, decide_eq_false_iff_not]
    omega
  have h1 : (ValidateRequest Parse now1 c userRepository sessionRepository w).outcome =
      .returned (some ⟨some u, some s⟩) none := by
    simp [ValidateRequest, hc, hp, hs1, hna1, hu1]
  have h2 : (ValidateRequest Parse now2 c userRepository sessionRepository w').outcome =
      .returned (some ⟨some u, some s⟩) none := by
    simp [ValidateRequest, hc, hp, hs2, hna2, hu2]
  exact ⟨h1, h2, h1.trans h2.symm⟩

/-- C7 at two calls in a row against the in-memory repositories: the first
at 2020-01-01 in a fresh store, the second at 2025-01-01 in the store the
first call left behind, with the session expiring in 2030. -/
theorem validate_idempotent_witness :
    (ValidateRequest parseUUID t2020 sampleRequest memUserRepository
        memSessionRepository (storeUntil t2030)).world =
      ⟨[sessionUntil t2030], [userU1], 1, 1⟩ ∧
    (ValidateRequest parseUUID t2020 sampleRequest memUserRepository
        memSessionRepository (storeUntil t2030)).outcome =
      .returned (some ⟨some userU1, some (sessionUntil t2030)⟩) none ∧
    (ValidateRequest parseUUID t2025 sampleRequest memUserRepository
        memSessionRepository ⟨[sessionUntil t2030], [userU1], 1, 1⟩).outcome =
      .returned (some ⟨some userU1, some (sessionUntil t2030)⟩) none ∧
    (ValidateRequest parseUUID t2020 sampleRequest memUserRepository
        memSessionRepository (storeUntil t2030)).outcome =
      (ValidateRequest parseUUID t2025 sampleRequest memUserRepository
        memSessionRepository ⟨[sessionUntil t2030], [userU1], 1, 1⟩).outcome :=
  ⟨by decide,
   validate_idempotent parseUUID t2020 t2025 sampleRequest memUserRepository
     memSessionRepository (storeUntil t2030) ⟨[sessionUntil t2030], [userU1], 1, 0⟩
     ⟨[sessionUntil t2030], [userU1], 1, 1⟩ ⟨[sessionUntil t2030], [userU1], 1, 1⟩
     ⟨[sessionUntil t2030], [userU1], 2, 1⟩ ⟨[sessionUntil t2030], [userU1], 2, 2⟩
     "3fa85f64-5717-4562-b3fc-2c963f66afa6" sampleId (sessionUntil t2030) userU1
     rfl rfl rfl rfl rfl rfl (by decide) (by decide)⟩

/-- C10: in every call of `ValidateRequest` the log holds at most one call
to each repository.  A call to the user repository is in the log only when
the cookie parsed, the session repository returned a session with a nil
error and that session passed the expiry check; it then follows the session
call and carries exactly that session's `userId`.  When the session lookup
fails, or the session fails the expiry check, the user repository is not
called. -/
theorem validate_call_order {σ : Type} (Parse : String → Except GoError UUID)
    (now : Time) (c : Context) (userRepository : UserRepository σ)
    (sessionRepository : SessionRepository σ) (w : σ) :
    (ValidateRequest Parse now c userRepository sessionRepository w).calls.countP
        Call.isSession ≤ 1 ∧
    (ValidateRequest Parse now c userRepository sessionRepository w).calls.countP
        Call.isUser ≤ 1 ∧
    (∀ uid,
      Call.GetUserById uid ∈
          (ValidateRequest Parse now c userRepository sessionRepository w).calls →
        ∃ v id s w1,
          c.Cookie "session" = .ok v ∧ Parse v = .ok id ∧
          sessionRepository.GetSessionById c.Request.Context id w =
            ((some s, none), w1) ∧
          now.After s.ExpiresAt = false ∧ uid = s.UserId ∧
          (ValidateRequest Parse now c userRepository sessionRepository w).calls =
            [.GetSessionById id, .GetUserById s.UserId]) ∧
    (∀ v id p e w1,
      c.Cookie "session" = .ok v → Parse v = .ok id →
      sessionRepository.GetSessionById c.Request.Context id w = ((p, some e), w1) →
        (ValidateRequest Parse now c userRepository sessionRepository w).calls =
          [.GetSessionById id]) ∧
    (∀ v id s w1,
      c.Cookie "session" = .ok v → Parse v = .ok id →
      sessionRepository.GetSessionById c.Request.Context id w = ((some s, none), w1) →
      now.After s.ExpiresAt = true →
        (ValidateRequest Parse now c userRepository sessionRepository w).calls =
          [.GetSessionById id]) := by
  refine ⟨?_, ?_, ?_, ?_, ?_⟩
  · unfold ValidateRequest
    repeat' split
    all_goals simp [Call.isSession, List.countP_cons]
  · unfold ValidateRequest
    repeat' split
    all_goals simp [Call.isUser, List.countP_cons]
  · intro uid hmem
    cases hck : c.Cookie "session" with
    | error err => simp [ValidateRequest, hck] at hmem
    | ok v =>
      cases hpv : Parse v with
      | error err => simp [ValidateRequest, hck, hpv] at hmem
      | ok id =>
        rcases hsr : sessionRepository.GetSessionById c.Request.Context id w with
          ⟨⟨p, oe⟩, w1⟩
        cases oe with
        | some e => simp [ValidateRequest, hck, hpv, hsr] at hmem
        | none =>
          cases p with
          | none => simp [ValidateRequest, hck, hpv, hsr] at hmem
          | some s =>
            cases hna : now.After s.ExpiresAt with
            | true => simp [ValidateRequest, hck, hpv, hsr, hna] at hmem
            | false =>
              have hcalls :
                  (ValidateRequest Parse now c userRepository sessionRepository w).calls =
                    [.GetSessionById id, .GetUserById s.UserId] := by
                rcases hur : userRepository.GetUserById c.Request.Context s.UserId w1 with
                  ⟨⟨q, oe⟩, w2⟩
                cases oe <;> simp [ValidateRequest, hck, hpv, hsr, hna, hur]
              rw [hcalls] at hmem
              have huid : uid = s.UserId := by simpa using hmem
              exact ⟨v, id, s, w1, rfl, hpv, hsr, hna, huid, hcalls⟩
  · intro v id p e w1 hck hpv hsr
    simp [ValidateRequest, hck, hpv, hsr]
  · intro v id s w1 hck hpv hsr hna
    simp [ValidateRequest, hck, hpv, hsr, hna]

/-! ## Nil pointers

The repositories return Go pairs, so a nil record may come with a nil error.
The two facts below record what the validator does then. -/

/-- A session repository that returns a nil session with a nil error makes
`ValidateRequest` dereference nil at the expiry check. -/
theorem validate_nil_session {σ : Type} (Parse : String → Except GoError UUID)
    (now : Time) (c : Context) (userRepository : UserRepository σ)
    (sessionRepository : SessionRepository σ) (w w1 : σ) (v : String) (id : UUID)
    (hc : c.Cookie "session" = .ok v) (hp : Parse v = .ok id)
    (hs : sessionRepository.GetSessionById c.Request.Context id w = ((none, none), w1)) :
    ValidateRequest Parse now c userRepository sessionRepository w =
      ⟨.nilDereference, [.GetSessionById id], w1⟩ := by
  simp [ValidateRequest, hc, hp, hs]

/-- A user repository that returns a nil user with a nil error makes
`ValidateRequest` return a nil error and an object whose `User` is nil. -/
theorem validate_nil_user {σ : Type} (Parse : String → Except GoError UUID)
    (now : Time) (c : Context) (userRepository : UserRepository σ)
    (sessionRepository : SessionRepository σ) (w w1 w2 : σ) (v : String) (id : UUID)
    (s : Session)
    (hc : c.Cookie "session" = .ok v) (hp : Parse v = .ok id)
    (hs : sessionRepository.GetSessionById c.Request.Context id w = ((some s, none), w1))
    (hna : now.After s.ExpiresAt = false)
    (hu : userRepository.GetUserById c.Request.Context s.UserId w1 = ((none, none), w2)) :
    ValidateRequest Parse now c userRepository sessionRepository w =
      ⟨.returned (some ⟨none, some s⟩) none,
        [.GetSessionById id, .GetUserById s.UserId], w2⟩ := by
  simp [ValidateRequest, hc, hp, hs, hna, hu]

end Authenticator
